import Mathlib

/-!
Shallow embedding of the portfolio website's client-side script (src/app.js).

The script defines record models (Skill, PortfolioItem, TimelineItem) with
`toHTML` rendering methods, section renderers that concatenate record markup,
a navigation component with a scroll-direction header-visibility handler and
link-click handling, a contact form submit handler, a scroll-reveal observer,
and a smooth-scroll easing function.  Each definition below is translated
directly from the corresponding source function; state that JavaScript keeps
in closures or on DOM nodes is passed explicitly.
-/

namespace PortfolioSite

/-- Header visibility as set by `Navigation.setupScroll` via the navbar's
`transform` style: `translateY(0)` (visible) or `translateY(-100%)` (hidden). -/
inductive HeaderVis where
  | visible
  | hidden
deriving DecidableEq, Repr

/-- One scroll event of the handler installed by `Navigation.setupScroll`
(src/app.js lines 150-170).  Input: the closure variable `lastScroll` and the
event's `window.pageYOffset` (`currentScroll`).  Output: the new value of
`lastScroll` and the header visibility the handler sets.  When
`currentScroll <= 0` the handler returns early, so `lastScroll` is unchanged. -/
def Navigation.setupScrollStep (lastScroll currentScroll : Int) : Int × HeaderVis :=
  if currentScroll ≤ 0 then
    (lastScroll, HeaderVis.visible)
  else if currentScroll > lastScroll ∧ currentScroll > 100 then
    (currentScroll, HeaderVis.hidden)
  else
    (currentScroll, HeaderVis.visible)

/-- Run the scroll handler over a sequence of scroll offsets, collecting the
header visibility set at each event. -/
def Navigation.runScroll (lastScroll : Int) : List Int → List HeaderVis
  | [] => []
  | c :: cs =>
    let r := Navigation.setupScrollStep lastScroll c
    r.2 :: Navigation.runScroll r.1 cs

/-- Field record passed to `super(...)` by the `Skill` constructor. -/
structure SkillData where
  name : String
  description : String
  icon : String
deriving DecidableEq, Repr

/-- Field record passed to `super(...)` by the `PortfolioItem` constructor. -/
structure PortfolioData where
  title : String
  description : String
  tags : List String
  image : Option String
deriving DecidableEq, Repr

/-- Field record passed to `super(...)` by the `TimelineItem` constructor. -/
structure TimelineData where
  date : String
  title : String
  company : String
  description : String
deriving DecidableEq, Repr

/-- The `Model` base class (src/app.js lines 33-45): holds one `data` field. -/
structure Model (α : Type) where
  data : α
deriving DecidableEq, Repr

/-- Method `Model.getData`: returns `this.data`. -/
def Model.getData {α : Type} (m : Model α) : α := m.data

/-- Method `Model.setData`: overwrites `this.data`. -/
def Model.setData {α : Type} (m : Model α) (d : α) : Model α := { m with data := d }

/-- The operations the `Model` interface offers on a record: `getData`,
`setData`, and the subclass's `toHTML`. -/
inductive ModelOp (α : Type) where
  | getData
  | setData (d : α)
  | toHTML

/-- State effect of one record operation.  `getData` and `toHTML` only read
`this.data` (every `toHTML` body in src/app.js lines 59-119 references
`this.data.*` and assigns nothing), so they leave the record unchanged;
`setData` replaces the `data` field. -/
def Model.applyOp {α : Type} (m : Model α) : ModelOp α → Model α
  | ModelOp.getData => m
  | ModelOp.setData d => m.setData d
  | ModelOp.toHTML => m

/-- The sequence of operations the running application performs on each record
after construction: `PortfolioApp.init` hands the records to a section
renderer, whose `render` calls `toHTML` exactly once per record
(src/app.js lines 207, 244, 281); no other code touches a record. -/
def Model.renderOps (α : Type) : List (ModelOp α) := [ModelOp.toHTML]

/-- A `Skill` record: `Model` whose data is a `SkillData`. -/
abbrev Skill := Model SkillData

/-- Constructor `new Skill(name, description, icon)`. -/
def Skill.new (name description icon : String) : Skill :=
  ⟨⟨name, description, icon⟩⟩

/-- Method `Skill.toHTML` (src/app.js lines 59-67), the template literal with its
three interpolations. -/
def Skill.toHTML (s : Skill) : String :=
  "\n            <div class=\"skill-card fade-in\">\n                <div class=\"skill-icon\">"
    ++ s.data.icon
    ++ "</div>\n                <h3 class=\"skill-name\">"
    ++ s.data.name
    ++ "</h3>\n                <p class=\"skill-description\">"
    ++ s.data.description
    ++ "</p>\n            </div>\n        "

/-- A `PortfolioItem` record: `Model` whose data is a `PortfolioData`. -/
abbrev PortfolioItem := Model PortfolioData

/-- Constructor `new PortfolioItem(title, description, tags, image)`. -/
def PortfolioItem.new (title description : String) (tags : List String)
    (image : Option String) : PortfolioItem :=
  ⟨⟨title, description, tags, image⟩⟩

/-- The `tagsHTML` local of `PortfolioItem.toHTML` (src/app.js lines 79-81):
map each tag to a span and join with the empty separator. -/
def PortfolioItem.tagsHTML (p : PortfolioItem) : String :=
  String.join (p.data.tags.map fun tag =>
    "<span class=\"portfolio-tag\">" ++ tag ++ "</span>")

/-- Method `PortfolioItem.toHTML` (src/app.js lines 78-99). -/
def PortfolioItem.toHTML (p : PortfolioItem) : String :=
  "\n            <div class=\"portfolio-item fade-in\">\n                <div class=\"portfolio-image\">\n                    <svg viewBox=\"0 0 24 24\" fill=\"none\" stroke=\"currentColor\" stroke-width=\"2\">\n                        <rect x=\"3\" y=\"3\" width=\"18\" height=\"18\" rx=\"2\"/>\n                        <circle cx=\"8.5\" cy=\"8.5\" r=\"1.5\"/>\n                        <path d=\"M21 15l-5-5L5 21\"/>\n                    </svg>\n                </div>\n                <div class=\"portfolio-content\">\n                    <h3 class=\"portfolio-title\">"
    ++ p.data.title
    ++ "</h3>\n                    <p class=\"portfolio-description\">"
    ++ p.data.description
    ++ "</p>\n                    <div class=\"portfolio-tags\">"
    ++ p.tagsHTML
    ++ "</div>\n                </div>\n            </div>\n        "

/-- A `TimelineItem` record: `Model` whose data is a `TimelineData`. -/
abbrev TimelineItem := Model TimelineData

/-- Constructor `new TimelineItem(date, title, company, description)`. -/
def TimelineItem.new (date title company description : String) : TimelineItem :=
  ⟨⟨date, title, company, description⟩⟩

/-- Method `TimelineItem.toHTML` (src/app.js lines 110-119). -/
def TimelineItem.toHTML (t : TimelineItem) : String :=
  "\n            <div class=\"timeline-item slide-in-left\">\n                <div class=\"timeline-date\">"
    ++ t.data.date
    ++ "</div>\n                <h3 class=\"timeline-title\">"
    ++ t.data.title
    ++ "</h3>\n                <div class=\"timeline-company\">"
    ++ t.data.company
    ++ "</div>\n                <p class=\"timeline-description\">"
    ++ t.data.description
    ++ "</p>\n            </div>\n        "

/-- Renderer `SkillsGrid.render` (src/app.js lines 206-210): the string assigned to the
container's `innerHTML`, i.e. `this.skills.map(s => s.toHTML()).join('')`. -/
def SkillsGrid.render (skills : List Skill) : String :=
  String.join (skills.map Skill.toHTML)

/-- Renderer `PortfolioGrid.render` (src/app.js lines 243-247). -/
def PortfolioGrid.render (items : List PortfolioItem) : String :=
  String.join (items.map PortfolioItem.toHTML)

/-- Renderer `Timeline.render` (src/app.js lines 280-284). -/
def Timeline.render (items : List TimelineItem) : String :=
  String.join (items.map TimelineItem.toHTML)

/-- String `x` occurs verbatim as a contiguous substring of `s`. -/
def occursIn (x s : String) : Prop :=
  ∃ pre post, s = pre ++ x ++ post

/-- DOM `classList.add`: a class list is a set of tokens, so adding an
already-present token is a no-op. -/
def classListAdd (classes : List String) (c : String) : List String :=
  if c ∈ classes then classes else classes ++ [c]

/-- DOM `classList.remove`: removes the token from the class list. -/
def classListRemove (classes : List String) (c : String) : List String :=
  classes.filter (fun x => x ≠ c)

/-- One intersection-observer callback entry for the section-reveal observer
(`ScrollAnimations.init`, src/app.js lines 370-376): if the entry is
intersecting, add the marker class "fade-in" to the section's class list;
otherwise leave the class list untouched (there is no removal branch). -/
def ScrollAnimations.step (classes : List String) (isIntersecting : Bool) :
    List String :=
  if isIntersecting then classListAdd classes "fade-in" else classes

/-- Result of one click on a navigation link (`Navigation.setupLinks`,
src/app.js lines 172-193): whether default navigation was prevented, the
`top` passed to `window.scrollTo` (if any), and the menu's class list after
the handler. -/
structure LinkClickResult where
  preventedDefault : Bool
  scrollTop : Option Int
  menuClasses : List String
deriving DecidableEq, Repr

/-- The click handler of `Navigation.setupLinks`: always prevents default;
when `document.querySelector(href)` finds a target (modelled by
`target = some offsetTop`), scrolls to `target.offsetTop - 80` (the fixed
header-height constant) and removes "active" from the mobile menu's class
list; when there is no target it does nothing further. -/
def Navigation.linkClick (target : Option Int) (menuClasses : List String) :
    LinkClickResult :=
  match target with
  | Option.none => ⟨true, Option.none, menuClasses⟩
  | Option.some offsetTop =>
      ⟨true, Option.some (offsetTop - 80), classListRemove menuClasses "active"⟩

/-- The three contact-form field values collected by `handleSubmit`. -/
structure FormFields where
  name : String
  email : String
  message : String
deriving DecidableEq, Repr

/-- Observable effects of the contact-form submit path (`ContactForm`,
src/app.js lines 320-358). -/
inductive FormEffect where
  | preventDefault
  | consoleLog (name email message : String)
  | appendBanner (text className : String)
  | setFadeOutAnim
  | removeBanner
  | resetFields
deriving DecidableEq, Repr

/-- Method `ContactForm.showMessage` (src/app.js lines 339-358) as timed effects,
times relative to the call: append the banner div (class
`form-message ${type}`) immediately; a `setTimeout(..., 3000)` sets the
fadeOut animation; its nested `setTimeout(..., 300)` removes the banner at
3000 + 300. -/
def ContactForm.showMessage (message type : String) : List (Nat × FormEffect) :=
  [(0, FormEffect.appendBanner message ("form-message " ++ type)),
   (3000, FormEffect.setFadeOutAnim),
   (3000 + 300, FormEffect.removeBanner)]

/-- Method `ContactForm.handleSubmit` (src/app.js lines 320-337) as timed effects,
times relative to the submit event: `e.preventDefault()`, then
`console.log('Form submitted:', formData)`, then `showMessage(...)` (which
appends the banner and schedules its timers), then `this.element.reset()` —
the reset runs synchronously, still at time 0. -/
def ContactForm.handleSubmit (fields : FormFields) : List (Nat × FormEffect) :=
  [(0, FormEffect.preventDefault),
   (0, FormEffect.consoleLog fields.name fields.email fields.message)]
  ++ ContactForm.showMessage "Thank you! Your message has been sent." "success"
  ++ [(0, FormEffect.resetFields)]

/-- Predicate picking out banner-append effects. -/
def FormEffect.isBanner : FormEffect → Bool
  | FormEffect.appendBanner _ _ => true
  | _ => false

/-- The `ease` function nested in `smoothScroll` (src/app.js lines 551-556),
modelled over ℚ: `t /= d / 2;` then a quadratic ease-in-out with one branch
for the first half and one for the second. -/
def ease (t b c d : ℚ) : ℚ :=
  let t1 := t / (d / 2)
  if t1 < 1 then
    c / 2 * t1 * t1 + b
  else
    let t2 := t1 - 1;
    -(c / 2) * (t2 * (t2 - 2) - 1) + b

/-- Modelled from the spec's words, for comparison with `ease`: linear
interpolation from `b` over distance `c` in duration `d`. -/
def easeLinearSpec (t b c d : ℚ) : ℚ := b + c * (t / d)

end PortfolioSite

namespace PortfolioSite

/-- C1: starting from `lastScroll = 0`, the scroll offsets [0, 50, 150, 120]
produce header states visible, visible, hidden, visible in that order. -/
theorem c1_scroll_sequence :
    Navigation.runScroll 0 [0, 50, 150, 120] =
      [HeaderVis.visible, HeaderVis.visible, HeaderVis.hidden, HeaderVis.visible] := by
  decide

/-- C2, counterexample: the claim says every scroll event with new offset at or
above zero forces the header visible; but at previous offset 50 and new offset
150 (which is ≥ 0) the handler hides the header. -/
theorem c2_counterexample :
    (150 : Int) ≥ 0 ∧ (Navigation.setupScrollStep 50 150).2 = HeaderVis.hidden := by
  decide

/-- C2, amended: for every scroll event whose new offset is at or BELOW zero,
the scroll handler forces the header visible, regardless of the previous
offset. -/
theorem c2_amended_visible_at_top (lastScroll currentScroll : Int)
    (h : currentScroll ≤ 0) :
    (Navigation.setupScrollStep lastScroll currentScroll).2 = HeaderVis.visible := by
  simp [Navigation.setupScrollStep, h]

/-- Witness for `c2_amended_visible_at_top` at lastScroll = 7,
currentScroll = -3. -/
theorem c2_amended_visible_at_top_witness :
    (Navigation.setupScrollStep 7 (-3)).2 = HeaderVis.visible :=
  c2_amended_visible_at_top 7 (-3) (by decide)

theorem string_join_append (l1 l2 : List String) :
    String.join (l1 ++ l2) = String.join l1 ++ String.join l2 := by
  apply String.ext
  simp [String.join_eq, String.data_append]

theorem string_join_cons (a : String) (l : List String) :
    String.join (a :: l) = a ++ String.join l := by
  apply String.ext
  simp [String.join_eq, String.data_append]

theorem occursIn_here (a x b : String) : occursIn x (a ++ x ++ b) := ⟨a, b, rfl⟩

theorem occursIn_appendL {x s : String} (a : String) (h : occursIn x s) :
    occursIn x (a ++ s) := by
  obtain ⟨p, q, rfl⟩ := h
  exact ⟨a ++ p, q, by simp [String.append_assoc]⟩

theorem occursIn_appendR {x s : String} (h : occursIn x s) (b : String) :
    occursIn x (s ++ b) := by
  obtain ⟨p, q, rfl⟩ := h
  exact ⟨p, q ++ b, by simp [String.append_assoc]⟩

theorem occursIn_trans {x t s : String} (h1 : occursIn x t) (h2 : occursIn t s) :
    occursIn x s := by
  obtain ⟨p2, q2, rfl⟩ := h2
  obtain ⟨p1, q1, rfl⟩ := h1
  exact ⟨p2 ++ p1, q1 ++ q2, by simp [String.append_assoc]⟩

theorem mem_map_join_occursIn (f : String → String) (x : String) :
    ∀ l : List String, x ∈ l → occursIn (f x) (String.join (l.map f))
  | [], h => absurd h (List.not_mem_nil x)
  | a :: l, h => by
    rcases List.mem_cons.mp h with rfl | h2
    · rw [List.map_cons, string_join_cons]
      exact ⟨"", String.join (l.map f), by simp⟩
    · rw [List.map_cons, string_join_cons]
      exact occursIn_appendL (f a) (mem_map_join_occursIn f x l h2)

/-- C9: when the new offset is at most zero, the handler sets the header
visible and returns early, leaving the stored `lastScroll` unchanged, so a
later event compares against the last positive offset seen, not zero. -/
theorem c9_early_return_keeps_lastScroll (lastScroll currentScroll : Int)
    (h : currentScroll ≤ 0) :
    Navigation.setupScrollStep lastScroll currentScroll =
      (lastScroll, HeaderVis.visible) := by
  simp [Navigation.setupScrollStep, h]

/-- Witness for `c9_early_return_keeps_lastScroll`: at lastScroll = 150 and
currentScroll = 0 the state stays 150, so a following offset of 120 is treated
as upward movement. -/
theorem c9_early_return_keeps_lastScroll_witness :
    Navigation.setupScrollStep 150 0 = (150, HeaderVis.visible) :=
  c9_early_return_keeps_lastScroll 150 0 (by decide)

/-- C4: every record operation the application performs after construction
(exactly one `toHTML` per record, in a section renderer's `render`) leaves the
record's fields unchanged, and `toHTML` applied after those operations gives
the same markup as at construction: rendering is a pure function of the fields
fixed at construction. -/
theorem c4_records_immutable (s : Skill) (p : PortfolioItem) (t : TimelineItem) :
    (List.foldl Model.applyOp s (Model.renderOps SkillData) = s ∧
      List.foldl Model.applyOp p (Model.renderOps PortfolioData) = p ∧
      List.foldl Model.applyOp t (Model.renderOps TimelineData) = t) ∧
    (Skill.toHTML (List.foldl Model.applyOp s (Model.renderOps SkillData)) =
        Skill.toHTML s ∧
      PortfolioItem.toHTML (List.foldl Model.applyOp p (Model.renderOps PortfolioData)) =
        PortfolioItem.toHTML p ∧
      TimelineItem.toHTML (List.foldl Model.applyOp t (Model.renderOps TimelineData)) =
        TimelineItem.toHTML t) :=
  ⟨⟨rfl, rfl, rfl⟩, rfl, rfl, rfl⟩

/-- C5: each section renderer's output is the concatenation of the records'
markup fragments in input order: it maps a cons to a fragment followed by the
rest, and list append to string concatenation (a monoid homomorphism), so the
rendered sequence preserves input order for every ordering of the list. -/
theorem c5_render_order_hom :
    (∀ (x : Skill) (xs : List Skill),
        SkillsGrid.render (x :: xs) = Skill.toHTML x ++ SkillsGrid.render xs) ∧
    (∀ xs ys : List Skill,
        SkillsGrid.render (xs ++ ys) = SkillsGrid.render xs ++ SkillsGrid.render ys) ∧
    (∀ (x : PortfolioItem) (xs : List PortfolioItem),
        PortfolioGrid.render (x :: xs) =
          PortfolioItem.toHTML x ++ PortfolioGrid.render xs) ∧
    (∀ xs ys : List PortfolioItem,
        PortfolioGrid.render (xs ++ ys) =
          PortfolioGrid.render xs ++ PortfolioGrid.render ys) ∧
    (∀ (x : TimelineItem) (xs : List TimelineItem),
        Timeline.render (x :: xs) = TimelineItem.toHTML x ++ Timeline.render xs) ∧
    (∀ xs ys : List TimelineItem,
        Timeline.render (xs ++ ys) = Timeline.render xs ++ Timeline.render ys) := by
  refine ⟨?_, ?_, ?_, ?_, ?_, ?_⟩ <;>
    intro a b <;>
    simp [SkillsGrid.render, PortfolioGrid.render, Timeline.render,
      string_join_cons, string_join_append]

set_option maxHeartbeats 1600000 in
/-- C10: `toHTML` embeds every field verbatim — each field of a `Skill`,
`PortfolioItem` (including every tag) and `TimelineItem` occurs as an exact
substring of the rendered markup, whatever characters the field contains
(no HTML escaping). -/
theorem c10_fields_verbatim (s : Skill) (p : PortfolioItem) (t : TimelineItem) :
    (occursIn s.data.icon (Skill.toHTML s) ∧
      occursIn s.data.name (Skill.toHTML s) ∧
      occursIn s.data.description (Skill.toHTML s)) ∧
    (occursIn p.data.title (PortfolioItem.toHTML p) ∧
      occursIn p.data.description (PortfolioItem.toHTML p) ∧
      ∀ tag, tag ∈ p.data.tags → occursIn tag (PortfolioItem.toHTML p)) ∧
    (occursIn t.data.date (TimelineItem.toHTML t) ∧
      occursIn t.data.title (TimelineItem.toHTML t) ∧
      occursIn t.data.company (TimelineItem.toHTML t) ∧
      occursIn t.data.description (TimelineItem.toHTML t)) := by
  refine ⟨⟨?_, ?_, ?_⟩, ⟨?_, ?_, ?_⟩, ?_, ?_, ?_, ?_⟩
  · exact occursIn_appendR (occursIn_appendR (occursIn_appendR
      (occursIn_appendR (occursIn_here _ _ _) _) _) _) _
  · exact occursIn_appendR (occursIn_appendR (occursIn_here _ _ _) _) _
  · exact occursIn_here _ _ _
  · exact occursIn_appendR (occursIn_appendR (occursIn_appendR
      (occursIn_appendR (occursIn_here _ _ _) _) _) _) _
  · exact occursIn_appendR (occursIn_appendR (occursIn_here _ _ _) _) _
  · intro tag htag
    have h1 : occursIn tag (PortfolioItem.tagsHTML p) :=
      occursIn_trans (occursIn_here _ _ _)
        (mem_map_join_occursIn _ tag p.data.tags htag)
    exact occursIn_appendR (occursIn_appendL _ h1) _
  · exact occursIn_appendR (occursIn_appendR (occursIn_appendR
      (occursIn_appendR (occursIn_appendR (occursIn_appendR
        (occursIn_here _ _ _) _) _) _) _) _) _
  · exact occursIn_appendR (occursIn_appendR (occursIn_appendR
      (occursIn_appendR (occursIn_here _ _ _) _) _) _) _
  · exact occursIn_appendR (occursIn_appendR (occursIn_here _ _ _) _) _
  · exact occursIn_here _ _ _

theorem classListAdd_preserves_mem (c cls : String) (classes : List String)
    (h : c ∈ classes) : c ∈ classListAdd classes cls := by
  unfold classListAdd
  split
  · exact h
  · exact List.mem_append_left _ h

theorem scrollAnimations_step_preserves_mem (c : String) (classes : List String)
    (b : Bool) (h : c ∈ classes) : c ∈ ScrollAnimations.step classes b := by
  cases b
  · exact h
  · exact classListAdd_preserves_mem c _ classes h

theorem scrollAnimations_foldl_preserves_mem (c : String) :
    ∀ (evs : List Bool) (classes : List String), c ∈ classes →
      c ∈ List.foldl ScrollAnimations.step classes evs
  | [], _, h => h
  | b :: evs, classes, h =>
    scrollAnimations_foldl_preserves_mem c evs (ScrollAnimations.step classes b)
      (scrollAnimations_step_preserves_mem c classes b h)

/-- C6: once a section carries the reveal marker class, every further
intersection event leaves its class list exactly unchanged (so the marker is
applied at most once and never removed), and after any sequence of further
events the marker is still present. -/
theorem c6_reveal_once_and_monotone (classes : List String) (evs : List Bool)
    (h : "fade-in" ∈ classes) :
    (∀ cs : List String, ScrollAnimations.step cs false = cs) ∧
    (∀ b : Bool, ScrollAnimations.step classes b = classes) ∧
    "fade-in" ∈ List.foldl ScrollAnimations.step classes evs := by
  refine ⟨fun cs => rfl, ?_, ?_⟩
  · intro b
    cases b
    · rfl
    · simp [ScrollAnimations.step, classListAdd, h]
  · exact scrollAnimations_foldl_preserves_mem "fade-in" evs classes h

/-- Witness for `c6_reveal_once_and_monotone`: a section already marked
"fade-in" keeps the marker through the event sequence
[exit, enter, enter], and an intersecting event is a no-op there. -/
theorem c6_reveal_once_and_monotone_witness :
    ScrollAnimations.step ["section"] false = ["section"] ∧
    ScrollAnimations.step ["section", "fade-in"] true = ["section", "fade-in"] ∧
    "fade-in" ∈ List.foldl ScrollAnimations.step ["section", "fade-in"]
      [false, true, true] :=
  ⟨(c6_reveal_once_and_monotone ["section", "fade-in"] [false, true, true]
      (by simp)).1 ["section"],
   (c6_reveal_once_and_monotone ["section", "fade-in"] [false, true, true]
      (by simp)).2.1 true,
   (c6_reveal_once_and_monotone ["section", "fade-in"] [false, true, true]
      (by simp)).2.2⟩

/-- C7: for every click on a link whose href matches an in-page target, the
handler prevents default navigation, scrolls so the target's top aligns at
its offset minus the header-height constant 80, and removes "active" from the
mobile menu's class list. -/
theorem c7_link_click (offsetTop : Int) (menuClasses : List String) :
    Navigation.linkClick (Option.some offsetTop) menuClasses =
      ⟨true, Option.some (offsetTop - 80), classListRemove menuClasses "active"⟩ ∧
    "active" ∉ (Navigation.linkClick (Option.some offsetTop) menuClasses).menuClasses := by
  refine ⟨rfl, ?_⟩
  simp [Navigation.linkClick, classListRemove]

/-- C3, counterexample: submitting name="A", email="b@x.com", message="hi"
does schedule a field reset, but only at time 0 — synchronously at submit —
so the reset does NOT occur after the banner's 3000-unit display period as
the claim states. -/
theorem c3_counterexample :
    (0, FormEffect.resetFields) ∈
        ContactForm.handleSubmit ⟨"A", "b@x.com", "hi"⟩ ∧
    ¬ ∃ te ∈ ContactForm.handleSubmit ⟨"A", "b@x.com", "hi"⟩,
        te.2 = FormEffect.resetFields ∧ 3000 ≤ te.1 := by
  decide

/-- C3, amended: submitting the form prevents default navigation, emits the
three field values only to the diagnostic log, appends exactly one success
banner which is removed after its full display-plus-fade duration
(3000 + 300), and resets the fields synchronously at submit time (time 0,
before the banner's display period elapses, not after it). -/
theorem c3_amended_submit_trace (f : FormFields) :
    ContactForm.handleSubmit f =
      [(0, FormEffect.preventDefault),
       (0, FormEffect.consoleLog f.name f.email f.message),
       (0, FormEffect.appendBanner "Thank you! Your message has been sent."
           "form-message success"),
       (3000, FormEffect.setFadeOutAnim),
       (3000 + 300, FormEffect.removeBanner),
       (0, FormEffect.resetFields)] ∧
    ((ContactForm.handleSubmit f).filter (fun te => FormEffect.isBanner te.2)).length = 1 :=
  ⟨rfl, rfl⟩

/-- C8, counterexample: at t = 1, b = 0, c = 8, d = 4 (so 0 ≤ t ≤ d and
d > 0) the easing function returns 1, while linear interpolation
b + c·(t/d) gives 2: the scroll easing is not linear. -/
theorem c8_counterexample :
    ease 1 0 8 4 ≠ easeLinearSpec 1 0 8 4 ∧
    (0 : ℚ) ≤ 1 ∧ (1 : ℚ) ≤ 4 ∧ (0 : ℚ) < 4 := by
  refine ⟨?_, by norm_num, by norm_num, by norm_num⟩
  show ease 1 0 8 4 ≠ easeLinearSpec 1 0 8 4
  rw [ease, easeLinearSpec]
  norm_num

/-- C8, amended: the easing function computes piecewise-quadratic
ease-in-out interpolation, not linear: for d > 0, on the first half
(2t < d) it returns b + (c/2)·(2t/d)², on the second half it returns
b − (c/2)·((2t/d − 1)·(2t/d − 3) − 1), and it agrees with linear
interpolation at the endpoints: ease(0) = b and ease(d) = b + c. -/
theorem c8_amended_quadratic_ease (t b c d : ℚ) (hd : 0 < d) :
    (2 * t < d → ease t b c d = b + c / 2 * (2 * t / d) ^ 2) ∧
    (d ≤ 2 * t → ease t b c d =
      b - c / 2 * ((2 * t / d - 1) * (2 * t / d - 3) - 1)) ∧
    ease 0 b c d = b ∧ ease d b c d = b + c := by
  have hdne : d ≠ 0 := ne_of_gt hd
  have hd2 : (0 : ℚ) < d / 2 := by positivity
  have hiff : ∀ s : ℚ, s / (d / 2) < 1 ↔ 2 * s < d := by
    intro s
    rw [div_lt_one hd2]
    constructor <;> intro h <;> linarith
  refine ⟨?_, ?_, ?_, ?_⟩
  · intro h
    rw [ease]
    rw [if_pos ((hiff t).mpr h)]
    field_simp
    ring
  · intro h
    have h1 : ¬ t / (d / 2) < 1 := by rw [hiff t]; linarith
    rw [ease]
    rw [if_neg h1]
    field_simp
    ring
  · rw [ease]
    rw [if_pos ((hiff 0).mpr (by linarith))]
    simp
  · have h1 : ¬ d / (d / 2) < 1 := by rw [hiff d]; linarith
    rw [ease]
    rw [if_neg h1]
    field_simp
    ring

/-- Witness for `c8_amended_quadratic_ease` at t = 1, b = 0, c = 8, d = 4:
the first-half formula gives 8/2·(1/2)² = 1, and the endpoints are 0 and
0 + 8. -/
theorem c8_amended_quadratic_ease_witness :
    ease 1 0 8 4 = 0 + 8 / 2 * (2 * 1 / 4) ^ 2 ∧
    ease 0 0 8 4 = 0 ∧ ease 4 0 8 4 = 0 + 8 :=
  ⟨(c8_amended_quadratic_ease 1 0 8 4 (by norm_num)).1 (by norm_num),
   (c8_amended_quadratic_ease 1 0 8 4 (by norm_num)).2.2.1,
   (c8_amended_quadratic_ease 1 0 8 4 (by norm_num)).2.2.2⟩

/-- Witness for `c10_fields_verbatim`: a tag containing markup-significant
characters is embedded verbatim in a concrete portfolio item's markup. -/
theorem c10_fields_verbatim_witness :
    occursIn "<b>&amp;" (PortfolioItem.toHTML
      (PortfolioItem.new "T" "D" ["<b>&amp;"] Option.none)) :=
  (c10_fields_verbatim (Skill.new "n" "d" "i")
    (PortfolioItem.new "T" "D" ["<b>&amp;"] Option.none)
    (TimelineItem.new "a" "b" "c" "d")).2.1.2.2 "<b>&amp;"
    (List.mem_cons_self "<b>&amp;" [])

end PortfolioSite
